import Mathlib

/-!
Shallow embedding of the GenVideoAi backend (`app.py`) for checking the
natural-language specification against the code.

Modelling conventions:
* Database tables are lists of row structures (`users`, `videos`,
  `payment_orders`, `payments`); parameterized SQL queries become
  `List.find?` / `List.filter` / `List.map` over those lists.
* Dates and timestamps are day indices (`Nat`); `today`/`now` is passed in
  explicitly where the code calls `datetime.now()`.
* Durations and money amounts are exact rationals (`ℚ`); the Python code
  uses floats, which we idealize as exact arithmetic.
* External effects (JWT decoding, the payment gateway, SMTP, the random
  number generator, the filesystem) are passed in as explicit parameters:
  the value the external call would have returned is an argument of the
  endpoint function, and the endpoint's observable effects are returned in
  its outcome structure.
* Each endpoint function mirrors the control flow of the corresponding
  Flask handler, branch by branch, including the HTTP status code and the
  message of each early return.
-/

set_option autoImplicit false

namespace GenVideoAi

/-- A row of the `users` table (id, email, plaintext password, name,
subscription tier, subscription_expiry date, auth_key session token,
reset_token and its expiry). Dates are day indices. -/
structure UserRow where
  id : Nat
  email : String
  password : String
  name : String
  subscription : String
  subscriptionExpiry : Option Nat
  authKey : Option String
  resetToken : Option String
  resetTokenExpiry : Option Nat
deriving Repr, DecidableEq

/-- A row of the `videos` table: id, user_id (owner), filename, duration
(seconds, as stored by `save_video_record`), created_at. -/
structure VideoRow where
  id : Nat
  userId : Nat
  filename : String
  duration : ℚ
  createdAt : Nat
deriving Repr, DecidableEq

/-- A row of the `payment_orders` table: order_id, user_id, amount,
subscription_type, duration_days, status (INITIATED or COMPLETED). -/
structure PaymentOrderRow where
  orderId : String
  userId : Nat
  amount : ℚ
  subscriptionType : String
  durationDays : Nat
  status : String
deriving Repr, DecidableEq

/-- A row of the `payments` ledger table, written once an order completes. -/
structure PaymentRow where
  orderId : String
  userId : Nat
  amount : ℚ
  paymentStatus : String
  paymentMethod : String
  transactionId : String
  paymentDate : Nat
deriving Repr, DecidableEq

/-- `get_user_video_count`: `SELECT COUNT(*) FROM videos WHERE user_id = %s`. -/
def get_user_video_count (videos : List VideoRow) (userId : Nat) : Nat :=
  (videos.filter (fun v => v.userId == userId)).length

/-! ## serve_video (`/video/<filename>`) -/

/-- Result of the `/video/<filename>` route: either a 404, or the bytes of
`filename` served out of the owner's `user_<ownerId>` output folder. -/
inductive ServeResult where
  | notFound
  | file (ownerId : Nat) (filename : String)
deriving Repr, DecidableEq

/-- `serve_video`: the route has no auth decorator, so the caller identity
(`requester`, `none` for an unauthenticated caller) is never consulted.
It looks the owner up by `SELECT user_id FROM videos WHERE filename = %s`
and serves the file from that owner's folder. -/
def serve_video (_requester : Option Nat) (videos : List VideoRow)
    (filename : String) : ServeResult :=
  match videos.find? (fun v => v.filename == filename) with
  | none => .notFound
  | some v => .file v.userId filename

/-! ## delete_video (`/delete_video`) -/

/-- Outcome of `/delete_video`: HTTP code, response message, resulting
`videos` table, and resulting filesystem (a list of
(owner folder, filename) pairs). -/
structure DeleteOutcome where
  code : Nat
  message : String
  videos : List VideoRow
  fs : List (Nat × String)
deriving Repr, DecidableEq

/-- `delete_video`: requires `videoId` or `filename` in the body; both the
ownership lookup and the final `DELETE` run `WHERE filename = %s`, with the
`videoId` value when present, else the `filename` value. The final
`DELETE FROM videos WHERE filename = %s` carries no user_id clause.
The physical file checked and removed is always the filename from the
fetched row, inside the authenticated user's folder. -/
def delete_video (videos : List VideoRow) (fs : List (Nat × String))
    (userId : Nat) (videoId fname : Option String) : DeleteOutcome :=
  match videoId, fname with
  | none, none => ⟨400, "Video ID or Filename is required", videos, fs⟩
  | some vid, _ =>
    match videos.find? (fun v => v.filename == vid && v.userId == userId) with
    | none => ⟨404, "Video not found or unauthorized", videos, fs⟩
    | some v =>
      if fs.contains (userId, v.filename) then
        ⟨200, "Video deleted successfully",
          videos.filter (fun r => !(r.filename == vid)),
          fs.filter (fun e => !(e == (userId, v.filename)))⟩
      else ⟨404, "Video not found", videos, fs⟩
  | none, some fn =>
    match videos.find? (fun v => v.filename == fn && v.userId == userId) with
    | none => ⟨404, "Video not found or unauthorized", videos, fs⟩
    | some v =>
      if fs.contains (userId, v.filename) then
        ⟨200, "Video deleted successfully",
          videos.filter (fun r => !(r.filename == fn)),
          fs.filter (fun e => !(e == (userId, v.filename)))⟩
      else ⟨404, "Video not found", videos, fs⟩

/-! ## check_video_limit and generate_video -/

/-- `/check_video_limit` response: HTTP code, `count`, and `canGenerate`. -/
def check_video_limit (videos : List VideoRow) (userId maxVideos : Nat) :
    Nat × Nat × Bool :=
  let count := get_user_video_count videos userId
  (200, count, decide (count < maxVideos))

/-- The per-slide duration loop of `generate_video`
(`while total_duration < voice_duration and image_paths:`): each slide's
duration is `min(get_random_duration(min_time, max_time), voice_duration -
total_duration)`. The random stream is the explicit `draws` argument and
`fuel` bounds the number of iterations of the Python `while` loop we
unroll. -/
def clipDurations (draws : Nat → ℚ) (images : List String) (voice : ℚ) :
    Nat → Nat → ℚ → List ℚ
  | 0, _, _ => []
  | fuel + 1, idx, total =>
    if total < voice ∧ images ≠ [] then
      let d := min (draws idx) (voice - total)
      d :: clipDurations draws images voice fuel (idx + 1) (total + d)
    else []

/-- Result of `/generate_video`. -/
inductive GenResult where
  | limitExceeded
  | missingFiles
  | ok (filename : String) (durations : List ℚ)
deriving Repr, DecidableEq

/-- Outcome of `/generate_video`: HTTP code, result, resulting `videos`
table. -/
structure GenOutcome where
  code : Nat
  result : GenResult
  videos : List VideoRow
deriving Repr, DecidableEq

/-- `generate_video`: first rejects with 403 when the user's stored video
count has reached `MAX_VIDEOS_PER_USER` (before any rendering or state
change), then rejects with 400 when an upload is missing, otherwise renders
the slideshow (slide durations from `clipDurations`) and inserts a video
row whose stored duration is the voice duration
(`save_video_record(..., voice_duration)`). -/
def generate_video (videos : List VideoRow) (userId maxVideos : Nat)
    (hasFiles : Bool) (images : List String) (draws : Nat → ℚ)
    (voiceDur : ℚ) (fuel : Nat) (newId : Nat) (newName : String)
    (now : Nat) : GenOutcome :=
  let count := get_user_video_count videos userId
  if count ≥ maxVideos then ⟨403, .limitExceeded, videos⟩
  else if !hasFiles then ⟨400, .missingFiles, videos⟩
  else
    ⟨200, .ok newName (clipDurations draws images voiceDur fuel 0 0),
      videos ++ [⟨newId, userId, newName, voiceDur, now⟩]⟩

/-! ## clear_cache -/

/-- Outcome of `/clear_cache`: HTTP code, message, resulting `videos`
table. -/
structure CacheOutcome where
  code : Nat
  message : String
  videos : List VideoRow
deriving Repr, DecidableEq

/-- `clear_cache_route`: attempts to clear the user's output folder
(`clearOk` is `clear_folder`'s result), then unconditionally runs
`DELETE FROM videos WHERE user_id = %s`, and only afterwards branches on
`clearOk` for the response. -/
def clear_cache_route (videos : List VideoRow) (userId : Nat)
    (clearOk : Bool) : CacheOutcome :=
  let videos' := videos.filter (fun v => !(v.userId == userId))
  if clearOk then ⟨200, "Cache cleared successfully", videos'⟩
  else ⟨500, "Failed to clear cache", videos'⟩

/-! ## token_required and subscription_required decorators -/

/-- Result of `jwt.decode` on a presented token: a valid payload carrying
`user_id`, an invalid token, or an expired signature (both of the latter
raise, and the decorators' `except` turns any raise into a 401). -/
inductive DecodeResult where
  | valid (userId : Nat)
  | invalid
  | expired
deriving Repr, DecidableEq

/-- Result of a decorator: either an early rejection (the wrapped handler
is never invoked) or the handler is invoked with the fetched user row. -/
inductive AuthResult where
  | reject (code : Nat) (message : String)
  | allow (u : UserRow)
deriving Repr, DecidableEq

/-- `SELECT * FROM users WHERE id = %s`. -/
def findUserById (users : List UserRow) (userId : Nat) : Option UserRow :=
  users.find? (fun u => u.id == userId)

/-- `token_required`: 401 on a missing token, 401 on any decode failure
(invalid or expired) or unknown user id, otherwise the handler runs with
the user row. No subscription check is performed here. -/
def token_required (users : List UserRow) (token : Option String)
    (decodeTok : String → DecodeResult) : AuthResult :=
  match token with
  | none => .reject 401 "Token is missing"
  | some t =>
    match decodeTok t with
    | .invalid => .reject 401 "Invalid token"
    | .expired => .reject 401 "Invalid token"
    | .valid userId =>
      match findUserById users userId with
      | none => .reject 401 "Invalid token"
      | some u => .allow u

/-- `subscription_required`: the same authentication steps as
`token_required`, then, when the user row has a `subscription_expiry`
strictly before today, a 403 "Subscription expired" rejection. -/
def subscription_required (users : List UserRow) (token : Option String)
    (decodeTok : String → DecodeResult) (today : Nat) : AuthResult :=
  match token with
  | none => .reject 401 "Token is missing"
  | some t =>
    match decodeTok t with
    | .invalid => .reject 401 "Invalid token"
    | .expired => .reject 401 "Invalid token"
    | .valid userId =>
      match findUserById users userId with
      | none => .reject 401 "Invalid token"
      | some u =>
        match u.subscriptionExpiry with
        | some e => if e < today then .reject 403 "Subscription expired" else .allow u
        | none => .allow u

/-! ## signup (`/signup`) -/

/-- The validated request body of `/signup`. -/
structure SignupData where
  email : String
  password : String
  name : String
  confirmPassword : String
deriving Repr, DecidableEq

/-- Outcome of `/signup`: HTTP code, token returned in the 201 body (if
any), resulting `users` table. -/
structure SignupOutcome where
  code : Nat
  token : Option String
  users : List UserRow
deriving Repr, DecidableEq

/-- `signup`: 400 on missing fields or password mismatch, 409 on an already
registered email; otherwise inserts the user (free tier, 30-day trial
expiry), stores the fresh JWT as auth_key, then tries to send the welcome
email inside its own try/except — `emailOk` is that attempt's result, and a
failure is only logged, never changing the 201 response. -/
def signup (users : List UserRow) (data : Option SignupData) (newId : Nat)
    (newToken : String) (today : Nat) (emailOk : Bool) : SignupOutcome :=
  match data with
  | none => ⟨400, none, users⟩
  | some d =>
    if d.password ≠ d.confirmPassword then ⟨400, none, users⟩
    else
      match users.find? (fun u => u.email == d.email) with
      | some _ => ⟨409, none, users⟩
      | none =>
        let newUser : UserRow :=
          ⟨newId, d.email, d.password, d.name, "free", some (today + 30),
            some newToken, none, none⟩
        let _welcomeEmailSent := emailOk
        ⟨201, some newToken, users ++ [newUser]⟩

/-! ## forgot_password (`/forgot-password`) -/

/-- Outcome of `/forgot-password`: HTTP code, message, resulting `users`
table, and whether an email send was attempted. -/
structure ForgotOutcome where
  code : Nat
  message : String
  users : List UserRow
  emailAttempted : Bool
deriving Repr, DecidableEq

/-- `forgot_password`: 400 without an email; when no user matches the
email, a generic 200 with no token write and no email; otherwise the reset
token and its expiry are stored and the reset email is sent (500 if the
SMTP send raises, the token having been written either way). -/
def forgot_password (users : List UserRow) (email : Option String)
    (newTok : String) (now expiryHours : Nat) (smtpOk : Bool) :
    ForgotOutcome :=
  match email with
  | none => ⟨400, "Email is required", users, false⟩
  | some em =>
    match users.find? (fun u => u.email == em) with
    | none =>
      ⟨200, "If the email exists, a reset link will be sent", users, false⟩
    | some u =>
      let users' := users.map (fun x =>
        if x.id == u.id then
          { x with resetToken := some newTok,
                   resetTokenExpiry := some (now + expiryHours) }
        else x)
      if smtpOk then ⟨200, "Password reset link sent", users', true⟩
      else ⟨500, "Failed to send email", users', true⟩

/-! ## Payment state (payment_success and payment_webhook) -/

/-- The database state the two payment-confirmation paths read and write:
the `users`, `payment_orders` and `payments` tables. -/
structure PayState where
  users : List UserRow
  orders : List PaymentOrderRow
  payments : List PaymentRow
deriving Repr, DecidableEq

/-- `update_subscription_status`: sets the user's tier and pushes the
expiry to `today + durationDays`. -/
def update_subscription_status (users : List UserRow) (userId : Nat)
    (subType : String) (durationDays : Nat) (today : Nat) : List UserRow :=
  users.map (fun u =>
    if u.id == userId then
      { u with subscription := subType,
               subscriptionExpiry := some (today + durationDays) }
    else u)

/-- Outcome of `/payment_success`: HTTP code, response tag, resulting
state. -/
structure PsOutcome where
  code : Nat
  tag : String
  st : PayState
deriving Repr, DecidableEq

/-- `payment_success`: fetches the order from the gateway
(`gatewayStatus`, `none` when the fetch fails); when the gateway reports
PAID and a `payment_orders` row matches `(order_id, user_id)`, it updates
the subscription, appends a `payments` ledger row, and rewrites the order
status to COMPLETED — without ever reading the stored `status` column
first. Every PAID outcome returns 200 "success". -/
def payment_success (st : PayState) (userId : Nat) (orderId : String)
    (gatewayStatus : Option String) (now : Nat) : PsOutcome :=
  match gatewayStatus with
  | none => ⟨400, "Failed to verify payment", st⟩
  | some gs =>
    if gs == "PAID" then
      match st.orders.find? (fun o => o.orderId == orderId && o.userId == userId) with
      | none => ⟨200, "success", st⟩
      | some od =>
        let users' :=
          update_subscription_status st.users userId od.subscriptionType
            od.durationDays now
        let payments' :=
          st.payments ++ [⟨orderId, userId, od.amount, gs, "", "", now⟩]
        let orders' := st.orders.map (fun o =>
          if o.orderId == orderId then { o with status := "COMPLETED" } else o)
        ⟨200, "success", ⟨users', orders', payments'⟩⟩
    else ⟨200, "success", st⟩

/-- Tags for the distinct return paths of `/payment_webhook`. -/
inductive WhTag where
  | badData
  | fetchFailed
  | alreadyProcessed
  | orderMissing
  | processed
  | pending
deriving Repr, DecidableEq

/-- Outcome of `/payment_webhook`: HTTP code, return-path tag, resulting
state. -/
structure WhOutcome where
  code : Nat
  tag : WhTag
  st : PayState
deriving Repr, DecidableEq

/-- `payment_webhook`: 400 on a payload without an order_id or on a failed
gateway fetch; when the gateway reports PAID it first reads the stored
order status (`SELECT status ... FOR UPDATE`) and returns
"Payment already processed" untouched when it is COMPLETED; 404 when the
order row is missing; otherwise it updates the user's subscription, appends
a `payments` ledger row, and sets the order status to COMPLETED. A
non-PAID gateway status returns 200 "pending" with no mutation. -/
def payment_webhook (st : PayState) (orderId : Option String)
    (gatewayStatus : Option String) (now : Nat) : WhOutcome :=
  match orderId with
  | none => ⟨400, .badData, st⟩
  | some oid =>
    match gatewayStatus with
    | none => ⟨400, .fetchFailed, st⟩
    | some gs =>
      if gs == "PAID" then
        match st.orders.find? (fun o => o.orderId == oid) with
        | none => ⟨404, .orderMissing, st⟩
        | some od =>
          if od.status == "COMPLETED" then ⟨200, .alreadyProcessed, st⟩
          else
            let users' := st.users.map (fun u =>
              if u.id == od.userId then
                { u with subscription := od.subscriptionType,
                         subscriptionExpiry := some (now + od.durationDays) }
              else u)
            let payments' :=
              st.payments ++ [⟨oid, od.userId, od.amount, gs, "unknown", "", now⟩]
            let orders' := st.orders.map (fun o =>
              if o.orderId == oid then { o with status := "COMPLETED" } else o)
            ⟨200, .processed, ⟨users', orders', payments'⟩⟩
      else ⟨200, .pending, st⟩

/-! ## Concrete fixtures used by witnesses and counterexamples -/

/-- A two-user `videos` table: user 1 owns `video_a.mp4`, user 2 owns
`video_b.mp4`. -/
def exVideos : List VideoRow :=
  [⟨1, 1, "video_a.mp4", 5, 0⟩, ⟨2, 2, "video_b.mp4", 4, 0⟩]

/-- The matching filesystem: each file in its owner's folder. -/
def exFs : List (Nat × String) := [(1, "video_a.mp4"), (2, "video_b.mp4")]

/-- A single registered user. -/
def exUser : UserRow :=
  ⟨1, "a@x.com", "pw", "A", "free", some 50, some "tokA", none, none⟩

/-- A one-user `users` table. -/
def exUsers : List UserRow := [exUser]

/-- A concrete JWT decoder: "good" is user 1's valid token, "late" is an
expired one, everything else is invalid. -/
def exDecode : String → DecodeResult := fun t =>
  if t == "good" then .valid 1
  else if t == "late" then .expired
  else .invalid

/-- A valid signup body. -/
def exSignup : SignupData := ⟨"new@x.com", "pw", "N", "pw"⟩

/-- Payment state with an order already COMPLETED and its ledger row
written. -/
def exPayDone : PayState :=
  ⟨[⟨1, "a@x.com", "pw", "A", "pro", some 130, some "tokA", none, none⟩],
   [⟨"order_1", 1, 10, "pro", 30, "COMPLETED"⟩],
   [⟨"order_1", 1, 10, "PAID", "", "", 100⟩]⟩

/-- Payment state with a freshly INITIATED order and an empty ledger. -/
def exPayInit : PayState :=
  ⟨[exUser], [⟨"order_1", 1, 10, "pro", 30, "INITIATED"⟩], []⟩

/-! ## Helper lemmas -/

/-- `find?` commutes with a `map` whose function preserves the predicate. -/
theorem find?_of_map_pres {α : Type} (p : α → Bool) (f : α → α)
    (hp : ∀ a, p (f a) = p a) (l : List α) :
    (l.map f).find? p = (l.find? p).map f := by
  rw [List.find?_map]
  have hpf : p ∘ f = p := funext hp
  rw [hpf]

/-- Claim C5: a user at or above `MAX_VIDEOS_PER_USER` stored videos gets a
403 from `generate_video` with the `videos` table unchanged, and
`check_video_limit` reports `canGenerate = true` exactly when the count is
strictly below the maximum. -/
theorem video_limit_enforced (videos : List VideoRow) (userId maxVideos : Nat)
    (hasFiles : Bool) (images : List String) (draws : Nat → ℚ) (voiceDur : ℚ)
    (fuel newId : Nat) (newName : String) (now : Nat) :
    (get_user_video_count videos userId ≥ maxVideos →
      generate_video videos userId maxVideos hasFiles images draws voiceDur
          fuel newId newName now = ⟨403, .limitExceeded, videos⟩) ∧
    ((check_video_limit videos userId maxVideos).2.2 = true ↔
      get_user_video_count videos userId < maxVideos) := by
  constructor
  · intro h
    simp [generate_video, h]
  · simp [check_video_limit]

/-- Witness for C5: with a cap of 1 and one stored video, generation is
rejected and `canGenerate` is false. -/
theorem video_limit_enforced_witness :
    generate_video exVideos 1 1 true ["a.jpg"] (fun _ => 3) 5 5 9 "video_c.mp4" 0
        = ⟨403, .limitExceeded, exVideos⟩ ∧
    ¬ ((check_video_limit exVideos 1 1).2.2 = true) :=
  ⟨(video_limit_enforced exVideos 1 1 true ["a.jpg"] (fun _ => 3) 5 5 9
      "video_c.mp4" 0).1 (by decide),
   fun h => by
    have := (video_limit_enforced exVideos 1 1 true ["a.jpg"] (fun _ => 3) 5 5 9
      "video_c.mp4" 0).2.mp h
    exact absurd this (by decide)⟩

/-- Claim C9: when folder clearing fails, `clear_cache_route` still returns
500 with the user's video rows already deleted from the database. -/
theorem clear_cache_deletes_rows_even_on_failure (videos : List VideoRow)
    (userId : Nat) :
    clear_cache_route videos userId false
        = ⟨500, "Failed to clear cache",
            videos.filter (fun v => !(v.userId == userId))⟩ ∧
    ∀ v ∈ (clear_cache_route videos userId false).videos, v.userId ≠ userId := by
  constructor
  · rfl
  · intro v hv
    simp [clear_cache_route, List.mem_filter] at hv
    exact hv.2

/-- Witness for C9: user 1's row is gone from the table even though the
response is the 500 error. -/
theorem clear_cache_failure_witness :
    clear_cache_route exVideos 1 false
      = ⟨500, "Failed to clear cache", [⟨2, 2, "video_b.mp4", 4, 0⟩]⟩ :=
  ((clear_cache_deletes_rows_even_on_failure exVideos 1).1).trans (by decide)

/-- Claim C10: a forgot-password request for an unregistered email returns
a generic 200, writes no reset token (the `users` table is unchanged), and
attempts no email send. -/
theorem forgot_password_unknown_email (users : List UserRow) (em : String)
    (newTok : String) (now expiryHours : Nat) (smtpOk : Bool)
    (h : ∀ u ∈ users, u.email ≠ em) :
    forgot_password users (some em) newTok now expiryHours smtpOk
      = ⟨200, "If the email exists, a reset link will be sent", users, false⟩ := by
  have hf : users.find? (fun u => u.email == em) = none := by
    rw [List.find?_eq_none]
    intro u hu
    simpa using h u hu
  simp [forgot_password, hf]

/-- Witness for C10: a lookup for an address no user has. -/
theorem forgot_password_unknown_email_witness :
    forgot_password exUsers (some "nobody@x.com") "tok" 0 1 true
      = ⟨200, "If the email exists, a reset link will be sent", exUsers, false⟩ :=
  forgot_password_unknown_email exUsers "nobody@x.com" "tok" 0 1 true (by decide)

/-- Claim C7: once validation passes and the user row is inserted, the
signup response is 201 with the new token whether or not the welcome-email
send succeeds. -/
theorem signup_survives_email_failure (users : List UserRow) (d : SignupData)
    (newId : Nat) (tok : String) (today : Nat)
    (hpw : d.password = d.confirmPassword)
    (hnew : ∀ u ∈ users, u.email ≠ d.email) :
    ∀ emailOk, signup users (some d) newId tok today emailOk
      = ⟨201, some tok,
          users ++ [⟨newId, d.email, d.password, d.name, "free",
                     some (today + 30), some tok, none, none⟩]⟩ := by
  intro emailOk
  have hf : users.find? (fun u => u.email == d.email) = none := by
    rw [List.find?_eq_none]
    intro u hu
    simpa using hnew u hu
  simp [signup, hpw, hf]

/-- Witness for C7: a failing welcome email still yields the 201 response
with the token. -/
theorem signup_survives_email_failure_witness :
    signup exUsers (some exSignup) 2 "tokN" 70 false
      = ⟨201, some "tokN",
          exUsers ++ [⟨2, "new@x.com", "pw", "N", "free", some 100,
                       some "tokN", none, none⟩]⟩ :=
  signup_survives_email_failure exUsers exSignup 2 "tokN" 70 rfl (by decide) false

/-- Claim C6: a missing, invalid or expired token is rejected with 401 by
`token_required` (so the handler is never invoked), and
`subscription_required` rejects with 403 a valid-token user whose
subscription_expiry is strictly before today. -/
theorem auth_rejections (users : List UserRow)
    (decodeTok : String → DecodeResult) (today : Nat) :
    (token_required users none decodeTok = .reject 401 "Token is missing") ∧
    (∀ t, decodeTok t = .invalid →
      token_required users (some t) decodeTok = .reject 401 "Invalid token") ∧
    (∀ t, decodeTok t = .expired →
      token_required users (some t) decodeTok = .reject 401 "Invalid token") ∧
    (∀ t userId u e, decodeTok t = .valid userId →
      findUserById users userId = some u →
      u.subscriptionExpiry = some e → e < today →
      subscription_required users (some t) decodeTok today
        = .reject 403 "Subscription expired") := by
  refine ⟨rfl, ?_, ?_, ?_⟩
  · intro t ht
    simp [token_required, ht]
  · intro t ht
    simp [token_required, ht]
  · intro t userId u e ht hu he hlt
    simp [subscription_required, ht, hu, he, hlt]

/-- Witness for C6: the three 401 rejections at concrete tokens, and the
403 rejection for user 1 (expiry day 50) queried on day 60. -/
theorem auth_rejections_witness :
    token_required exUsers none exDecode = .reject 401 "Token is missing" ∧
    token_required exUsers (some "bad") exDecode = .reject 401 "Invalid token" ∧
    token_required exUsers (some "late") exDecode = .reject 401 "Invalid token" ∧
    subscription_required exUsers (some "good") exDecode 60
      = .reject 403 "Subscription expired" :=
  ⟨(auth_rejections exUsers exDecode 60).1,
   (auth_rejections exUsers exDecode 60).2.1 "bad" (by decide),
   (auth_rejections exUsers exDecode 60).2.2.1 "late" (by decide),
   (auth_rejections exUsers exDecode 60).2.2.2 "good" 1 exUser 50 (by decide)
     (by decide) rfl (by decide)⟩

/-- Counterexample to C1 as stated: `/video/<filename>` performs no caller
check at all, so a request by user 2 — or by an unauthenticated caller —
for user 1's `video_a.mp4` returns the file, not an error. -/
theorem serve_video_ignores_caller_cex :
    serve_video (some 2) exVideos "video_a.mp4" = .file 1 "video_a.mp4" ∧
    serve_video none exVideos "video_a.mp4" = .file 1 "video_a.mp4" ∧
    serve_video (some 2) exVideos "video_a.mp4" ≠ .notFound := by
  refine ⟨rfl, rfl, ?_⟩
  decide

/-- Claim C1 amended: deletion by a non-owner is rejected with the 404
"Video not found or unauthorized" response and removes nothing; but the
video-serving endpoint consults no caller identity, so any caller
(authenticated or not) who supplies the filename of an existing row is
served the file from the owner's folder. -/
theorem cross_user_video_access (videos : List VideoRow)
    (fs : List (Nat × String)) (a b : Nat) (vid : String)
    (requester : Option Nat) (v : VideoRow)
    (hab : b ≠ a)
    (hown : ∀ w ∈ videos, w.filename = vid → w.userId = a) :
    delete_video videos fs b (some vid) none
        = ⟨404, "Video not found or unauthorized", videos, fs⟩ ∧
    (videos.find? (fun r => r.filename == vid) = some v →
      serve_video requester videos vid = .file v.userId vid) := by
  constructor
  · have hf : videos.find? (fun w => w.filename == vid && w.userId == b) = none := by
      rw [List.find?_eq_none]
      intro w hw
      simp only [Bool.and_eq_true, beq_iff_eq, not_and]
      intro hfn hb
      exact hab (hb ▸ (hown w hw hfn).symm ▸ rfl)
    simp [delete_video, hf]
  · intro hf
    simp [serve_video, hf]

/-- Witness for amended C1: user 2 cannot delete user 1's `video_a.mp4`
(404, tables untouched), yet fetching it as user 2 returns the file. -/
theorem cross_user_video_access_witness :
    delete_video exVideos exFs 2 (some "video_a.mp4") none
        = ⟨404, "Video not found or unauthorized", exVideos, exFs⟩ ∧
    serve_video (some 2) exVideos "video_a.mp4" = .file 1 "video_a.mp4" :=
  ⟨(cross_user_video_access exVideos exFs 1 2 "video_a.mp4" (some 2)
      ⟨1, 1, "video_a.mp4", 5, 0⟩ (by decide) (by decide)).1,
   (cross_user_video_access exVideos exFs 1 2 "video_a.mp4" (some 2)
      ⟨1, 1, "video_a.mp4", 5, 0⟩ (by decide) (by decide)).2 (by decide)⟩

/-- Claim C8: `delete_video` matches `videoId` against the filename column
— a request with `videoId = s` behaves exactly like one with
`filename = s`; and when every stored filename contains a dot (as the
generated `video_*.mp4` names do) a purely numeric `videoId` matches no
row, yielding the 404 with nothing deleted. -/
theorem delete_video_matches_filename_column (videos : List VideoRow)
    (fs : List (Nat × String)) (userId : Nat) (s : String) :
    delete_video videos fs userId (some s) none
        = delete_video videos fs userId none (some s) ∧
    ((∀ v ∈ videos, '.' ∈ v.filename.toList) → (∀ c ∈ s.toList, c.isDigit) →
      delete_video videos fs userId (some s) none
        = ⟨404, "Video not found or unauthorized", videos, fs⟩) := by
  constructor
  · rfl
  · intro hdot hdig
    have hne : ∀ v ∈ videos, v.filename ≠ s := by
      intro v hv heq
      have hmem : '.' ∈ s.toList := heq ▸ hdot v hv
      exact absurd (hdig _ hmem) (by decide)
    have hf : videos.find? (fun v => v.filename == s && v.userId == userId) = none := by
      rw [List.find?_eq_none]
      intro v hv
      simp only [Bool.and_eq_true, beq_iff_eq, not_and]
      intro hfn
      exact absurd hfn (hne v hv)
    simp [delete_video, hf]

/-- Witness for C8: the numeric database id 1 of `video_a.mp4` passed as
`videoId` matches nothing, and the two parameter spellings agree. -/
theorem delete_video_matches_filename_column_witness :
    delete_video exVideos exFs 1 (some "1") none
        = delete_video exVideos exFs 1 none (some "1") ∧
    delete_video exVideos exFs 1 (some "1") none
        = ⟨404, "Video not found or unauthorized", exVideos, exFs⟩ :=
  ⟨(delete_video_matches_filename_column exVideos exFs 1 "1").1,
   (delete_video_matches_filename_column exVideos exFs 1 "1").2
     (by decide) (by decide)⟩

/-- Counterexample to C2 as stated: with `order_1` already stored as
COMPLETED (and its ledger row written), a `payment_success` poll that sees
PAID from the gateway mutates state again — a second ledger row is
appended and the stored state changes. -/
theorem payment_success_recredits_cex :
    (payment_success exPayDone 1 "order_1" (some "PAID") 200).st.payments.length
        = exPayDone.payments.length + 1 ∧
    (payment_success exPayDone 1 "order_1" (some "PAID") 200).st ≠ exPayDone := by
  refine ⟨rfl, ?_⟩
  decide

/-- Claim C2 amended: only the webhook path checks the stored order status
before mutating — a webhook for an order already COMPLETED returns the
already-processed response with the state untouched — while
`payment_success` performs no stored-status check: whenever the gateway
reports PAID and the `(order_id, user_id)` row exists, it appends a fresh
ledger row (and re-credits the subscription), even for an order already
COMPLETED. -/
theorem completed_order_guard_webhook_only (st : PayState) (oid : String)
    (od : PaymentOrderRow) (userId : Nat) (now : Nat) (od2 : PaymentOrderRow)
    (hw : st.orders.find? (fun o => o.orderId == oid) = some od)
    (hc : od.status = "COMPLETED") :
    payment_webhook st (some oid) (some "PAID") now
        = ⟨200, .alreadyProcessed, st⟩ ∧
    (st.orders.find? (fun o => o.orderId == oid && o.userId == userId) = some od2 →
      (payment_success st userId oid (some "PAID") now).st.payments
        = st.payments ++ [⟨oid, userId, od2.amount, "PAID", "", "", now⟩]) := by
  constructor
  · simp [payment_webhook, hw, hc]
  · intro h2
    simp [payment_success, h2]

/-- Witness for amended C2: on the COMPLETED `order_1`, the webhook is a
no-op but `payment_success` appends a second ledger row. -/
theorem completed_order_guard_webhook_only_witness :
    payment_webhook exPayDone (some "order_1") (some "PAID") 200
        = ⟨200, .alreadyProcessed, exPayDone⟩ ∧
    (payment_success exPayDone 1 "order_1" (some "PAID") 200).st.payments
        = exPayDone.payments ++ [⟨"order_1", 1, 10, "PAID", "", "", 200⟩] :=
  ⟨(completed_order_guard_webhook_only exPayDone "order_1"
      ⟨"order_1", 1, 10, "pro", 30, "COMPLETED"⟩ 1 200
      ⟨"order_1", 1, 10, "pro", 30, "COMPLETED"⟩ (by decide) rfl).1,
   (completed_order_guard_webhook_only exPayDone "order_1"
      ⟨"order_1", 1, 10, "pro", 30, "COMPLETED"⟩ 1 200
      ⟨"order_1", 1, 10, "pro", 30, "COMPLETED"⟩ (by decide) rfl).2 (by decide)⟩

/-- Claim C3: once a first webhook call has processed an order (status not
yet COMPLETED, gateway PAID), a second webhook call for the same order hits
the stored-status guard: it returns the 200 already-processed response and
leaves users, orders and the payments ledger exactly as the first call left
them. -/
theorem webhook_second_call_is_noop (st : PayState) (oid : String)
    (od : PaymentOrderRow) (now now2 : Nat)
    (hfind : st.orders.find? (fun o => o.orderId == oid) = some od)
    (hst : od.status ≠ "COMPLETED") :
    (payment_webhook st (some oid) (some "PAID") now).tag = .processed ∧
    payment_webhook (payment_webhook st (some oid) (some "PAID") now).st
        (some oid) (some "PAID") now2
      = ⟨200, .alreadyProcessed,
          (payment_webhook st (some oid) (some "PAID") now).st⟩ := by
  have hbeq : (od.status == "COMPLETED") = false := by simpa using hst
  have hpe : od.orderId = oid := by
    have h := List.find?_some hfind
    simpa using h
  constructor
  · simp [payment_webhook, hfind, hbeq]
  · have hp : ∀ o : PaymentOrderRow,
        ((fun o : PaymentOrderRow => o.orderId == oid)
          (if o.orderId == oid then { o with status := "COMPLETED" } else o))
          = (o.orderId == oid) := by
      intro o
      by_cases h : o.orderId = oid <;> simp [h]
    have horders : (payment_webhook st (some oid) (some "PAID") now).st.orders
        = st.orders.map (fun o =>
            if o.orderId == oid then { o with status := "COMPLETED" } else o) := by
      simp [payment_webhook, hfind, hbeq]
    have hfind2 : (payment_webhook st (some oid) (some "PAID") now).st.orders.find?
        (fun o => o.orderId == oid) = some { od with status := "COMPLETED" } := by
      rw [horders, find?_of_map_pres _ _ hp, hfind]
      simp [hpe]
    generalize (payment_webhook st (some oid) (some "PAID") now).st = st1 at hfind2 ⊢
    simp [payment_webhook, hfind2]

/-- Witness for C3: processing the INITIATED `order_1` once, then sending
the webhook again, yields the already-processed response and the same
state. -/
theorem webhook_second_call_is_noop_witness :
    (payment_webhook exPayInit (some "order_1") (some "PAID") 100).tag
        = .processed ∧
    payment_webhook (payment_webhook exPayInit (some "order_1") (some "PAID") 100).st
        (some "order_1") (some "PAID") 101
      = ⟨200, .alreadyProcessed,
          (payment_webhook exPayInit (some "order_1") (some "PAID") 100).st⟩ :=
  webhook_second_call_is_noop exPayInit "order_1"
    ⟨"order_1", 1, 10, "pro", 30, "INITIATED"⟩ 100 101 (by decide) (by decide)

/-- Invariant of the slide-duration loop: as long as every random draw is
at least `minT > 0` and the remaining voice time fits in the remaining
fuel, the durations emitted from any intermediate `total` sum to exactly
the remaining voice time. -/
theorem clipDurations_sum_eq (draws : Nat → ℚ) (images : List String)
    (voice minT : ℚ) (hmin : 0 < minT) (hlo : ∀ i, minT ≤ draws i)
    (himg : images ≠ []) :
    ∀ (fuel idx : Nat) (total : ℚ), total ≤ voice →
      voice - total ≤ (fuel : ℚ) * minT →
      total + (clipDurations draws images voice fuel idx total).sum = voice := by
  intro fuel
  induction fuel with
  | zero =>
    intro idx total hle hfuel
    simp only [clipDurations, List.sum_nil, add_zero]
    simp only [Nat.cast_zero, zero_mul] at hfuel
    linarith
  | succ n ih =>
    intro idx total hle hfuel
    by_cases hcond : total < voice
    · have hc : total < voice ∧ images ≠ [] := ⟨hcond, himg⟩
      rw [clipDurations, if_pos hc, List.sum_cons]
      have hdle : min (draws idx) (voice - total) ≤ voice - total :=
        min_le_right _ _
      have hrec : voice - (total + min (draws idx) (voice - total))
          ≤ (n : ℚ) * minT := by
        rcases le_total (draws idx) (voice - total) with h | h
        · rw [min_eq_left h]
          have h1 : minT ≤ draws idx := hlo idx
          have h2 : voice - total ≤ ((n : ℚ) + 1) * minT := by
            push_cast at hfuel
            linarith
          nlinarith
        · rw [min_eq_right h]
          have : (0 : ℚ) ≤ (n : ℚ) * minT := by positivity
          linarith
      have happ := ih (idx + 1) (total + min (draws idx) (voice - total))
        (by linarith) hrec
      linarith
    · rw [clipDurations, if_neg (fun hc => hcond hc.1)]
      simp only [List.sum_nil, add_zero]
      linarith

/-- Claim C4: with a non-empty image list, a positive voice duration, draws
bounded within `[minT, maxT]` with `minT > 0`, and enough loop fuel, the
per-slide durations produced by `generate_video`'s loop — each the random
draw capped by the remaining voice time — sum to exactly the voice track's
duration. -/
theorem video_duration_eq_voice (draws : Nat → ℚ) (images : List String)
    (voice minT maxT : ℚ) (fuel : Nat)
    (hmin : 0 < minT) (hlo : ∀ i, minT ≤ draws i) (_hhi : ∀ i, draws i ≤ maxT)
    (himg : images ≠ []) (hvoice : 0 < voice)
    (hfuel : voice ≤ (fuel : ℚ) * minT) :
    (clipDurations draws images voice fuel 0 0).sum = voice := by
  have h := clipDurations_sum_eq draws images voice minT hmin hlo himg fuel 0 0
    (le_of_lt hvoice) (by simpa using hfuel)
  linarith

/-- Witness for C4: constant draws of 3 within [3, 5], a 7-second voice
track, fuel 3: slide durations [3, 3, 1] summing to 7. -/
theorem video_duration_eq_voice_witness :
    (clipDurations (fun _ => (3 : ℚ)) ["img1.jpg"] 7 3 0 0).sum = 7 :=
  video_duration_eq_voice (fun _ => (3 : ℚ)) ["img1.jpg"] 7 3 5 3
    (by norm_num) (fun _ => le_refl 3) (fun _ => by norm_num)
    (by decide) (by norm_num) (by norm_num)

end GenVideoAi
